import Mathlib

/-!
Shallow embedding of `src/ico_converter.py` (Image to ICO Converter).

The program has two functional pieces:
* size selection inside `convert` (lines 77-87): either the canonical six
  sizes when the "All Sizes" checkbox is set, or the individually checked
  sizes, iterated over the `size_vars` dictionary in its insertion order
  16, 32, 48, 64, 128, 256;
* `convert_to_ico` (lines 27-48): opens the source image with PIL inside a
  `with` block, converts it to RGBA mode when needed, and saves it in ICO
  format with the requested sizes; every exception is caught, shown in an
  error dialog, and turned into a `False` return value.

GUI state (entry fields, dialog results, checkbox variables) is passed as
explicit parameters; the filesystem is a partial map from paths to file
data; the PIL library calls are modelled as Lean functions over that map.
-/

namespace IcoConverter

/-- A PIL image: its pixel mode (for example RGB or RGBA) and an abstract
stand-in for its pixel content, which mode conversion preserves. -/
structure PILImage where
  mode : String
  data : Nat
deriving DecidableEq

/-- Content of a file in the modelled filesystem: a decodable raster image
(JPEG/PNG), an ICO container listing the dimensions of its embedded
images, or any other (non-image / corrupt) content. -/
inductive FileData where
  | image (img : PILImage)
  | icoFile (entries : List (Nat × Nat))
  | other
deriving DecidableEq

end IcoConverter

namespace IcoConverter

/-- The filesystem: a map from paths to file contents. -/
def FS : Type := String → Option FileData

/-- Models `img.convert(m)` from PIL: same pixel content, new mode. -/
def PILImage.convert (img : PILImage) (m : String) : PILImage :=
  { mode := m, data := img.data }

/-- Models `Image.open(path)`: succeeds iff the path holds decodable image
content, otherwise raises (returns an error message). -/
def pilOpen (fs : FS) (path : String) : Except String PILImage :=
  match fs path with
  | some (.image img) => .ok img
  | some _ => .error ("cannot identify image file " ++ path)
  | none => .error ("No such file or directory: " ++ path)

/-- Models `img.save(path, format=ICO, sizes=sizes)`: writes an ICO file
with one embedded image per requested size when the destination is
writable, otherwise raises. The spec states the encode call is atomic from
the caller's perspective, so failure leaves the filesystem unchanged. -/
def pilSave (writable : String → Bool) (fs : FS) (path : String)
    (img : PILImage) (sizes : List (Nat × Nat)) : Except String FS :=
  if writable path then
    .ok (fun p => if p = path then some (.icoFile sizes) else fs p)
  else
    .error ("Permission denied: " ++ path)

/-- Handle events of the `with Image.open(...)` block: acquisition and
release of the opened image handle. -/
inductive HandleEv where
  | openH
  | closeH
deriving DecidableEq

/-- Result of `convert_to_ico`: the returned boolean, the error dialog
message if one was shown, the filesystem after the call, the image handed
to the ICO encoder (a ghost observation, `none` when the open failed), and
the handle event trace of the `with` block. -/
structure IcoResult where
  ok : Bool
  errMsg : Option String
  fs : FS
  savedImg : Option PILImage
  trace : List HandleEv

/-- Embedding of `convert_to_ico(input_path, output_path, sizes)`
(lines 27-48): open the image, convert to RGBA if its mode differs, save
as ICO with the requested sizes; any exception is reported in an error
dialog and yields `False`. The `with` block releases the handle on both
the success and the exception path. -/
def convert_to_ico (writable : String → Bool) (fs : FS)
    (input_path output_path : String) (sizes : List (Nat × Nat)) : IcoResult :=
  match pilOpen fs input_path with
  | .error e =>
      { ok := false, errMsg := some ("An error occurred: " ++ e), fs := fs,
        savedImg := none, trace := [] }
  | .ok img =>
      let img2 := if img.mode ≠ "RGBA" then img.convert "RGBA" else img
      match pilSave writable fs output_path img2 sizes with
      | .error e =>
          { ok := false, errMsg := some ("An error occurred: " ++ e), fs := fs,
            savedImg := some img2, trace := [.openH, .closeH] }
      | .ok fs2 =>
          { ok := true, errMsg := none, fs := fs2,
            savedImg := some img2, trace := [.openH, .closeH] }

/-- Models reading back the size directory of an ICO file at a path. -/
def icoSizes (fs : FS) (path : String) : Option (List (Nat × Nat)) :=
  match fs path with
  | some (.icoFile entries) => some entries
  | _ => none

/-- The candidate sizes, in the insertion order of the `size_vars`
dictionary (line 161): ascending canonical order. -/
def canonicalSizes : List Nat := [16, 32, 48, 64, 128, 256]

/-- Size selection from `convert` (lines 77-83): the fixed six pairs when
`all_sizes_var` is set, otherwise a loop over `size_vars` appending
`(size, size)` for each checked size. -/
def computeSizes (all_sizes_var : Bool) (size_vars : Nat → Bool) :
    List (Nat × Nat) :=
  if all_sizes_var then
    [(16, 16), (32, 32), (48, 48), (64, 64), (128, 128), (256, 256)]
  else
    canonicalSizes.foldl
      (fun acc size => if size_vars size then acc ++ [(size, size)] else acc) []

/-- Result of the `convert` handler: the warning dialog message if one was
shown, the success info message if one was shown, the error dialog message
raised inside `convert_to_ico` if any, the size list passed to
`convert_to_ico` (or `none` when it was never invoked), and the resulting
filesystem. -/
structure ConvertResult where
  warning : Option String
  info : Option String
  errorMsg : Option String
  invokedSizes : Option (List (Nat × Nat))
  fs : FS

/-- Embedding of the `convert` handler (lines 62-91). `input_path` is the
content of the input entry field; `output_path` is the result of the save
dialog (empty when the user cancelled); `all_sizes_var` and `size_vars`
are the checkbox variables. An empty input path warns and aborts; an empty
output path aborts silently; an empty size list warns and aborts;
otherwise `convert_to_ico` runs and success shows an info dialog. -/
def convert (writable : String → Bool) (fs : FS)
    (input_path output_path : String) (all_sizes_var : Bool)
    (size_vars : Nat → Bool) : ConvertResult :=
  if input_path = "" then
    { warning := some "Please select an input file.", info := none,
      errorMsg := none, invokedSizes := none, fs := fs }
  else if output_path = "" then
    { warning := none, info := none, errorMsg := none,
      invokedSizes := none, fs := fs }
  else
    let sizes := computeSizes all_sizes_var size_vars
    if sizes = [] then
      { warning := some "Please select at least one icon size.", info := none,
        errorMsg := none, invokedSizes := none, fs := fs }
    else
      let r := convert_to_ico writable fs input_path output_path sizes
      { warning := none,
        info := if r.ok then
            some ("Successfully converted " ++ input_path ++ " to " ++ output_path)
          else none,
        errorMsg := r.errMsg,
        invokedSizes := some sizes,
        fs := r.fs }

/-- The size-selection loop is the filterMap of the checked sizes. -/
lemma foldl_select_eq (size_vars : Nat → Bool) (l : List Nat)
    (acc : List (Nat × Nat)) :
    l.foldl (fun a s => if size_vars s then a ++ [(s, s)] else a) acc
      = acc ++ l.filterMap (fun s => if size_vars s then some (s, s) else none) := by
  induction l generalizing acc with
  | nil => simp
  | cons x xs ih =>
      by_cases h : size_vars x <;>
        simp [h, ih, List.filterMap_cons, List.append_assoc]

/-- FilterMap of a conditional pairing is the filter followed by the map. -/
lemma filterMap_if_eq (p : Nat → Bool) (l : List Nat) :
    l.filterMap (fun s => if p s then some (s, s) else none)
      = (l.filter p).map (fun s => (s, s)) := by
  induction l with
  | nil => rfl
  | cons x xs ih =>
      by_cases h : p x <;> simp [h, ih, List.filterMap_cons, List.filter_cons]

/-- Closed form of size selection with the all-sizes flag off. -/
lemma computeSizes_false (size_vars : Nat → Bool) :
    computeSizes false size_vars
      = (canonicalSizes.filter (fun s => size_vars s)).map (fun s => (s, s)) := by
  simp [computeSizes, foldl_select_eq, filterMap_if_eq]

/-- Closed form of size selection with the all-sizes flag on. -/
lemma computeSizes_true (size_vars : Nat → Bool) :
    computeSizes true size_vars
      = [(16, 16), (32, 32), (48, 48), (64, 64), (128, 128), (256, 256)] := rfl

/-- C1: with the all-sizes flag set, size selection yields exactly the six
canonical square pairs, whatever the individual checkbox flags are. -/
theorem all_sizes_selected (size_vars : Nat → Bool) :
    computeSizes true size_vars
      = [(16, 16), (32, 32), (48, 48), (64, 64), (128, 128), (256, 256)] := rfl

/-- C2: with the all-sizes flag off, size selection yields exactly the
checked candidate sizes as square pairs, and the underlying sizes appear
in strictly ascending canonical order. -/
theorem individual_sizes_selected (size_vars : Nat → Bool) :
    computeSizes false size_vars
      = (canonicalSizes.filter (fun s => size_vars s)).map (fun s => (s, s)) ∧
    List.Sorted (· < ·) (canonicalSizes.filter (fun s => size_vars s)) := by
  refine ⟨computeSizes_false size_vars, ?_⟩
  have h : List.Sorted (· < ·) canonicalSizes := by decide
  exact h.filter _

/-- C9: every produced size list, with the all-sizes flag on or off,
contains only square pairs drawn from the canonical set, with no size
repeated. -/
theorem sizes_square_canonical_nodup (all_sizes_var : Bool)
    (size_vars : Nat → Bool) :
    (∀ p, p ∈ computeSizes all_sizes_var size_vars →
      p.1 = p.2 ∧ p.1 ∈ canonicalSizes) ∧
    (computeSizes all_sizes_var size_vars).Nodup := by
  cases all_sizes_var with
  | true =>
      rw [computeSizes_true]
      constructor
      · intro p hp
        simp only [List.mem_cons, List.not_mem_nil, or_false] at hp
        rcases hp with rfl | rfl | rfl | rfl | rfl | rfl <;> decide
      · decide
  | false =>
      rw [computeSizes_false]
      constructor
      · intro p hp
        rcases List.mem_map.1 hp with ⟨s, hs, rfl⟩
        exact ⟨rfl, (List.mem_filter.1 hs).1⟩
      · have hnd : canonicalSizes.Nodup := by decide
        exact (hnd.filter _).map fun a b h => by
          simpa using congrArg Prod.fst h

/-- C9 witness: a concrete element of a concrete selection is a square
canonical pair, and that selection has no duplicates. -/
theorem sizes_square_canonical_nodup_witness :
    ((16, 16).1 = (16, 16).2 ∧ (16, 16).1 ∈ canonicalSizes) ∧
    (computeSizes true (fun _ => false)).Nodup :=
  ⟨(sizes_square_canonical_nodup true (fun _ => false)).1 (16, 16) (by decide),
   (sizes_square_canonical_nodup true (fun _ => false)).2⟩

/-- C3: with the all-sizes flag off and every individual flag off, the
`convert` handler warns that no icon size is selected, never invokes
`convert_to_ico`, and leaves the filesystem untouched. -/
theorem no_size_selected_aborts (writable : String → Bool) (fs : FS)
    (input_path output_path : String) (size_vars : Nat → Bool)
    (hin : input_path ≠ "") (hout : output_path ≠ "")
    (hvars : ∀ s, size_vars s = false) :
    (convert writable fs input_path output_path false size_vars).warning
        = some "Please select at least one icon size." ∧
    (convert writable fs input_path output_path false size_vars).invokedSizes
        = none ∧
    (convert writable fs input_path output_path false size_vars).fs = fs := by
  have hempty : computeSizes false size_vars = [] := by
    rw [computeSizes_false]
    simp [hvars]
  simp [convert, hin, hout, hempty]

/-- C3 witness: the all-flags-off selection at concrete inputs warns and
aborts. -/
theorem no_size_selected_aborts_witness :
    (convert (fun _ => true) (fun _ => none) "in.png" "out.ico" false
        (fun _ => false)).warning
      = some "Please select at least one icon size." ∧
    (convert (fun _ => true) (fun _ => none) "in.png" "out.ico" false
        (fun _ => false)).invokedSizes = none ∧
    (convert (fun _ => true) (fun _ => none) "in.png" "out.ico" false
        (fun _ => false)).fs = (fun _ => none) :=
  no_size_selected_aborts (fun _ => true) (fun _ => none) "in.png" "out.ico"
    (fun _ => false) (by decide) (by decide) (fun _ => rfl)

/-- C4: whenever `convert_to_ico` returns failure, an error dialog with a
description was shown and the filesystem is exactly what it was before the
call: no partial or corrupt output is left behind. -/
theorem conversion_failure_reported_atomic (writable : String → Bool)
    (fs : FS) (input_path output_path : String) (sizes : List (Nat × Nat))
    (h : (convert_to_ico writable fs input_path output_path sizes).ok = false) :
    (convert_to_ico writable fs input_path output_path sizes).errMsg.isSome
        = true ∧
    (convert_to_ico writable fs input_path output_path sizes).fs = fs := by
  cases hop : pilOpen fs input_path with
  | error e => simp [convert_to_ico, hop]
  | ok img =>
      by_cases hw : writable output_path
      · simp [convert_to_ico, hop, pilSave, hw] at h
      · simp [convert_to_ico, hop, pilSave, hw]

/-- C4 witness: converting a non-image file fails, shows an error, and
leaves the filesystem unchanged. -/
theorem conversion_failure_reported_atomic_witness :
    (convert_to_ico (fun _ => true)
        (fun p => if p = "bad.png" then some FileData.other else none)
        "bad.png" "out.ico" [(16, 16)]).errMsg.isSome = true ∧
    (convert_to_ico (fun _ => true)
        (fun p => if p = "bad.png" then some FileData.other else none)
        "bad.png" "out.ico" [(16, 16)]).fs
      = (fun p => if p = "bad.png" then some FileData.other else none) :=
  conversion_failure_reported_atomic _ _ _ _ _ (by decide)

/-- C5: whenever the source image opens, the image handed to the ICO
encoder is in RGBA mode with the source's pixel content, is the opened
image itself when that was already RGBA, and on success the output path
holds an ICO with one embedded image per requested size. -/
theorem rgba_before_encode (writable : String → Bool) (fs : FS)
    (input_path output_path : String) (sizes : List (Nat × Nat))
    (img : PILImage) (h : pilOpen fs input_path = .ok img) :
    ∃ img2,
      (convert_to_ico writable fs input_path output_path sizes).savedImg
          = some img2 ∧
      img2.mode = "RGBA" ∧
      img2.data = img.data ∧
      (img.mode = "RGBA" → img2 = img) ∧
      ((convert_to_ico writable fs input_path output_path sizes).ok = true →
        (convert_to_ico writable fs input_path output_path sizes).fs output_path
          = some (.icoFile sizes)) := by
  refine ⟨if img.mode ≠ "RGBA" then img.convert "RGBA" else img, ?_, ?_, ?_, ?_, ?_⟩
  · by_cases hw : writable output_path <;>
      simp [convert_to_ico, h, pilSave, hw]
  · by_cases hm : img.mode = "RGBA" <;> simp [hm, PILImage.convert]
  · by_cases hm : img.mode = "RGBA" <;> simp [hm, PILImage.convert]
  · intro hm; simp [hm]
  · intro hok
    by_cases hw : writable output_path
    · simp [convert_to_ico, h, pilSave, hw]
    · simp [convert_to_ico, h, pilSave, hw] at hok

/-- C5 witness: an RGB image at a concrete path is re-encoded through an
RGBA copy and the output holds the requested size. -/
theorem rgba_before_encode_witness :
    ∃ img2,
      (convert_to_ico (fun _ => true)
          (fun p => if p = "in.png" then some (FileData.image ⟨"RGB", 7⟩) else none)
          "in.png" "out.ico" [(32, 32)]).savedImg = some img2 ∧
      img2.mode = "RGBA" ∧
      img2.data = (⟨"RGB", 7⟩ : PILImage).data ∧
      ((⟨"RGB", 7⟩ : PILImage).mode = "RGBA" → img2 = ⟨"RGB", 7⟩) ∧
      ((convert_to_ico (fun _ => true)
          (fun p => if p = "in.png" then some (FileData.image ⟨"RGB", 7⟩) else none)
          "in.png" "out.ico" [(32, 32)]).ok = true →
        (convert_to_ico (fun _ => true)
          (fun p => if p = "in.png" then some (FileData.image ⟨"RGB", 7⟩) else none)
          "in.png" "out.ico" [(32, 32)]).fs "out.ico"
          = some (.icoFile [(32, 32)])) :=
  rgba_before_encode (fun _ => true)
    (fun p => if p = "in.png" then some (FileData.image ⟨"RGB", 7⟩) else none)
    "in.png" "out.ico" [(32, 32)] ⟨"RGB", 7⟩ rfl

/-- C7: a decodable source image, a writable destination, and a requested
size list give a successful conversion, and decoding the written ICO back
yields exactly one embedded image per requested size, at that size. -/
theorem ico_roundtrip (writable : String → Bool) (fs : FS)
    (input_path output_path : String) (sizes : List (Nat × Nat))
    (img : PILImage) (hin : fs input_path = some (.image img))
    (hw : writable output_path = true) (_hne : sizes ≠ []) :
    (convert_to_ico writable fs input_path output_path sizes).ok = true ∧
    icoSizes (convert_to_ico writable fs input_path output_path sizes).fs
        output_path
      = some sizes := by
  have hop : pilOpen fs input_path = .ok img := by simp [pilOpen, hin]
  constructor
  · simp [convert_to_ico, hop, pilSave, hw]
  · simp [convert_to_ico, hop, pilSave, hw, icoSizes]

/-- C7 witness: a concrete conversion with two sizes succeeds and decodes
back to exactly those two sizes. -/
theorem ico_roundtrip_witness :
    (convert_to_ico (fun _ => true)
        (fun p => if p = "in.jpg" then some (FileData.image ⟨"RGB", 3⟩) else none)
        "in.jpg" "out.ico" [(16, 16), (256, 256)]).ok = true ∧
    icoSizes (convert_to_ico (fun _ => true)
        (fun p => if p = "in.jpg" then some (FileData.image ⟨"RGB", 3⟩) else none)
        "in.jpg" "out.ico" [(16, 16), (256, 256)]).fs "out.ico"
      = some [(16, 16), (256, 256)] :=
  ico_roundtrip (fun _ => true)
    (fun p => if p = "in.jpg" then some (FileData.image ⟨"RGB", 3⟩) else none)
    "in.jpg" "out.ico" [(16, 16), (256, 256)] ⟨"RGB", 3⟩ rfl rfl (by decide)

/-- C8: the handle trace of `convert_to_ico` is balanced on every path —
each acquisition of the opened image handle is matched by a release — and
whenever the open succeeds the trace is exactly an acquire followed by a
release. -/
theorem handle_released (writable : String → Bool) (fs : FS)
    (input_path output_path : String) (sizes : List (Nat × Nat)) :
    (convert_to_ico writable fs input_path output_path sizes).trace.count
        HandleEv.openH
      = (convert_to_ico writable fs input_path output_path sizes).trace.count
          HandleEv.closeH ∧
    (∀ img, pilOpen fs input_path = .ok img →
      (convert_to_ico writable fs input_path output_path sizes).trace
        = [HandleEv.openH, HandleEv.closeH]) := by
  cases hop : pilOpen fs input_path with
  | error e =>
      refine ⟨by simp [convert_to_ico, hop], ?_⟩
      intro img h
      exact absurd h (by simp)
  | ok img =>
      by_cases hw : writable output_path
      · exact ⟨by simp [convert_to_ico, hop, pilSave, hw],
          fun _ _ => by simp [convert_to_ico, hop, pilSave, hw]⟩
      · exact ⟨by simp [convert_to_ico, hop, pilSave, hw],
          fun _ _ => by simp [convert_to_ico, hop, pilSave, hw]⟩

/-- C8 witness: on a concrete successful open the trace is exactly acquire
then release, and counts balance. -/
theorem handle_released_witness :
    (convert_to_ico (fun _ => true)
        (fun p => if p = "in.png" then some (FileData.image ⟨"RGBA", 1⟩) else none)
        "in.png" "out.ico" [(48, 48)]).trace.count HandleEv.openH
      = (convert_to_ico (fun _ => true)
        (fun p => if p = "in.png" then some (FileData.image ⟨"RGBA", 1⟩) else none)
        "in.png" "out.ico" [(48, 48)]).trace.count HandleEv.closeH ∧
    (convert_to_ico (fun _ => true)
        (fun p => if p = "in.png" then some (FileData.image ⟨"RGBA", 1⟩) else none)
        "in.png" "out.ico" [(48, 48)]).trace
      = [HandleEv.openH, HandleEv.closeH] :=
  ⟨(handle_released (fun _ => true)
      (fun p => if p = "in.png" then some (FileData.image ⟨"RGBA", 1⟩) else none)
      "in.png" "out.ico" [(48, 48)]).1,
   (handle_released (fun _ => true)
      (fun p => if p = "in.png" then some (FileData.image ⟨"RGBA", 1⟩) else none)
      "in.png" "out.ico" [(48, 48)]).2 ⟨"RGBA", 1⟩ rfl⟩

/-- C6 counterexample: with an input path chosen but the save dialog
cancelled (empty output path), `convert` aborts without invoking the
converter yet shows no warning, no info and no error dialog — the
validation failure is silently swallowed, contradicting the claim that
every validation failure is surfaced as a warning. -/
theorem missing_output_silently_ignored :
    (convert (fun _ => true) (fun _ => none) "in.png" "" true
        (fun _ => false)).invokedSizes = none ∧
    (convert (fun _ => true) (fun _ => none) "in.png" "" true
        (fun _ => false)).warning = none ∧
    (convert (fun _ => true) (fun _ => none) "in.png" "" true
        (fun _ => false)).info = none ∧
    (convert (fun _ => true) (fun _ => none) "in.png" "" true
        (fun _ => false)).errorMsg = none := by
  refine ⟨?_, ?_, ?_, ?_⟩ <;> decide

/-- C6 amended: `convert` skips the conversion exactly when the input path
is empty, the output path is empty, or the selected size list is empty;
when it does, a missing input path and an empty size selection are
surfaced as warnings, while a missing output path aborts silently. -/
theorem validation_surfaced (writable : String → Bool) (fs : FS)
    (input_path output_path : String) (all_sizes_var : Bool)
    (size_vars : Nat → Bool) :
    ((convert writable fs input_path output_path all_sizes_var
        size_vars).invokedSizes = none
      ↔ (input_path = "" ∨ output_path = ""
          ∨ computeSizes all_sizes_var size_vars = [])) ∧
    ((convert writable fs input_path output_path all_sizes_var
        size_vars).invokedSizes = none →
      (convert writable fs input_path output_path all_sizes_var
          size_vars).warning
        = (if input_path = "" then some "Please select an input file."
           else if output_path = "" then none
           else some "Please select at least one icon size.")) := by
  by_cases h1 : input_path = "" <;> by_cases h2 : output_path = "" <;>
    by_cases h3 : computeSizes all_sizes_var size_vars = [] <;>
      simp [convert, h1, h2, h3]

/-- C6 amended witness: at a concrete empty input path the conversion is
skipped and the input-file warning is shown. -/
theorem validation_surfaced_witness :
    (convert (fun _ => true) (fun _ => none) "" "out.ico" true
        (fun _ => false)).warning = some "Please select an input file." :=
  ((validation_surfaced (fun _ => true) (fun _ => none) "" "out.ico" true
      (fun _ => false)).2 (by decide)).trans (if_pos rfl)

/-- C10 counterexample: when the save dialog yields the same path as the
input, the conversion succeeds and overwrites the source file: the file at
the input path held image content before the call and ICO content after,
so the input file is not only read. -/
theorem source_overwritten_same_path :
    (fun p => if p = "a.png"
        then some (FileData.image ⟨"RGBA", 0⟩) else none) "a.png"
      = some (FileData.image ⟨"RGBA", 0⟩) ∧
    (convert_to_ico (fun _ => true)
        (fun p => if p = "a.png"
          then some (FileData.image ⟨"RGBA", 0⟩) else none)
        "a.png" "a.png" [(16, 16)]).ok = true ∧
    (convert_to_ico (fun _ => true)
        (fun p => if p = "a.png"
          then some (FileData.image ⟨"RGBA", 0⟩) else none)
        "a.png" "a.png" [(16, 16)]).fs "a.png"
      ≠ some (FileData.image ⟨"RGBA", 0⟩) := by
  refine ⟨rfl, ?_, ?_⟩ <;> decide

/-- C10 amended: `convert_to_ico` writes no path other than the output
path, so whenever the input path differs from the output path the source
file is untouched. -/
theorem only_output_path_written (writable : String → Bool) (fs : FS)
    (input_path output_path : String) (sizes : List (Nat × Nat))
    (p : String) (hp : p ≠ output_path) :
    (convert_to_ico writable fs input_path output_path sizes).fs p = fs p := by
  cases hop : pilOpen fs input_path with
  | error e => simp [convert_to_ico, hop]
  | ok img =>
      by_cases hw : writable output_path
      · simp [convert_to_ico, hop, pilSave, hw, hp]
      · simp [convert_to_ico, hop, pilSave, hw]

/-- C10 amended witness: a successful concrete conversion leaves the
source file exactly as it was. -/
theorem only_output_path_written_witness :
    (convert_to_ico (fun _ => true)
        (fun p => if p = "in.png"
          then some (FileData.image ⟨"RGB", 5⟩) else none)
        "in.png" "out.ico" [(64, 64)]).fs "in.png"
      = (fun p => if p = "in.png"
          then some (FileData.image ⟨"RGB", 5⟩) else none) "in.png" :=
  only_output_path_written (fun _ => true)
    (fun p => if p = "in.png" then some (FileData.image ⟨"RGB", 5⟩) else none)
    "in.png" "out.ico" [(64, 64)] "in.png" (by decide)

end IcoConverter
